import Mathlib

/-!
Verification of the mime-detective facade (src/lib.rs).

The crate is a thin facade over two external collaborators: the libmagic
engine (crate magic: Cookie.open, Cookie.load, Cookie.file, Cookie.buffer)
and the MIME grammar parser (crate mime: str.parse to mime.Mime).  Both are
opaque dependencies of the repository, so they are embedded as environment
records of abstract functions (MagicEnv, MimeEnv); the facade itself —
MimeDetective.new, load_databases, detect_filepath, detect_file,
detect_buffer and the DetectiveError union — is translated clause by clause
from src/lib.rs.  Rust's `?` operator materialises as the explicit matches
with the From conversions (DetectiveError.fromMagic / fromParse / fromIo),
and the std::fs::File handle of detect_file is an explicit state record
(byte contents, read position, optional pending read fault) threaded through
read_exact.
-/

/-- Opaque handle to an opened libmagic session (magic::Cookie). -/
structure Cookie where
  id : Nat
deriving DecidableEq

/-- Error value of the external magic engine (magic::MagicError), carried opaquely. -/
structure MagicError where
  desc : String
deriving DecidableEq

/-- Error value of the external MIME grammar machinery (mime::FromStrError), carried opaquely. -/
structure FromStrError where
  msg : String
deriving DecidableEq

/-- Error value of the standard I/O layer (std::io::Error). read_exact on a
truncated source produces unexpectedEof; any other kind is carried opaquely. -/
inductive IoError where
  | unexpectedEof : IoError
  | other : Nat → IoError
deriving DecidableEq

/-- A structured MIME value (mime::Mime): type, subtype, parameters.  Only the
external grammar machinery constructs these; the facade never builds one directly. -/
structure Mime where
  type_ : String
  subtype : String
  params : List (String × String)
deriving DecidableEq

namespace flags

/-- The libmagic mode flag MAGIC_MIME_TYPE (magic::flags::MIME_TYPE, value 0x000010):
ask the engine for a MIME type string rather than a textual description. -/
def MIME_TYPE : Nat := 16

end flags

/-- Behaviour of the external libmagic engine, as the facade consumes it:
session opening with a mode flag, database loading, query by path and query
by byte buffer.  Each call is a pure function of the session and the input,
matching the facade's use of the engine through shared references. -/
structure MagicEnv where
  openCookie : Nat → Except MagicError Cookie
  load : Cookie → List String → Except MagicError Unit
  fileQuery : Cookie → String → Except MagicError String
  bufferQuery : Cookie → List Nat → Except MagicError String

/-- Behaviour of the external MIME grammar machinery: parsing a string into a
structured Mime, failing on any string not conforming to MIME grammar. -/
structure MimeEnv where
  parse : String → Except FromStrError Mime

/-- The unified error of the crate (enum DetectiveError in src/lib.rs):
exactly three variants, each wrapping the originating error unmodified. -/
inductive DetectiveError where
  | Magic : MagicError → DetectiveError
  | Parse : FromStrError → DetectiveError
  | Io : IoError → DetectiveError
deriving DecidableEq

/-- The From(MagicError) conversion used by the `?` operator in src/lib.rs. -/
def DetectiveError.fromMagic (e : MagicError) : DetectiveError :=
  DetectiveError.Magic e

/-- The From(FromStrError) conversion used by the `?` operator in src/lib.rs. -/
def DetectiveError.fromParse (e : FromStrError) : DetectiveError :=
  DetectiveError.Parse e

/-- The From(io::Error) conversion used by the `?` operator in src/lib.rs. -/
def DetectiveError.fromIo (e : IoError) : DetectiveError :=
  DetectiveError.Io e

/-- An open std::fs::File handle: its byte contents, the current read
position, and an optional pending fault that makes the next read fail
(modelling read errors other than end-of-file). -/
structure File where
  contents : List Nat
  pos : Nat
  readError : Option IoError
deriving DecidableEq

/-- Read.read_exact for a buffer of n bytes, as std::fs::File realises it:
a faulty handle fails at once consuming nothing; with at least n bytes past
the position it yields exactly those n bytes and advances the position by n;
otherwise it consumes whatever is available and fails with unexpectedEof. -/
def File.read_exact (f : File) (n : Nat) : Except IoError (List Nat) × File :=
  match f.readError with
  | some e => (.error e, f)
  | none =>
    if n ≤ f.contents.length - f.pos then
      (.ok ((f.contents.drop f.pos).take n), { f with pos := f.pos + n })
    else
      (.error .unexpectedEof, { f with pos := f.pos + min n (f.contents.length - f.pos) })

/-- The detector facade (struct MimeDetective): owns the engine session handle. -/
structure MimeDetective where
  cookie : Cookie
deriving DecidableEq

/-- MimeDetective::load_databases: open an engine session with the
MIME_TYPE mode flag, load the given database paths into it, and return the
facade; either engine failure propagates through From(MagicError). -/
def MimeDetective.load_databases (env : MagicEnv) (path : List String) :
    Except DetectiveError MimeDetective :=
  match env.openCookie flags.MIME_TYPE with
  | .error e => .error (DetectiveError.fromMagic e)
  | .ok cookie =>
    match env.load cookie path with
    | .error e => .error (DetectiveError.fromMagic e)
    | .ok _ => .ok { cookie := cookie }

/-- MimeDetective::new: load_databases on the single platform-default path. -/
def MimeDetective.new (env : MagicEnv) : Except DetectiveError MimeDetective :=
  MimeDetective.load_databases env ["/usr/share/misc/magic.mgc"]

/-- MimeDetective::detect_filepath: query the engine with the path, then
parse the returned identifier into a Mime. -/
def MimeDetective.detect_filepath (env : MagicEnv) (menv : MimeEnv)
    (self : MimeDetective) (filename : String) : Except DetectiveError Mime :=
  match env.fileQuery self.cookie filename with
  | .error e => .error (DetectiveError.fromMagic e)
  | .ok mime_str =>
    match menv.parse mime_str with
    | .error e => .error (DetectiveError.fromParse e)
    | .ok mime => .ok mime

/-- MimeDetective::detect_buffer: query the engine with the byte buffer, then
parse the returned identifier into a Mime. -/
def MimeDetective.detect_buffer (env : MagicEnv) (menv : MimeEnv)
    (self : MimeDetective) (buffer : List Nat) : Except DetectiveError Mime :=
  match env.bufferQuery self.cookie buffer with
  | .error e => .error (DetectiveError.fromMagic e)
  | .ok mime_str =>
    match menv.parse mime_str with
    | .error e => .error (DetectiveError.fromParse e)
    | .ok mime => .ok mime

/-- MimeDetective::detect_file: read_exact 2 bytes from the handle (the
handle state is threaded explicitly), fail through From(io::Error) if the
read fails, otherwise detect_buffer on the 2 bytes read. -/
def MimeDetective.detect_file (env : MagicEnv) (menv : MimeEnv)
    (self : MimeDetective) (file : File) : Except DetectiveError Mime × File :=
  match file.read_exact 2 with
  | (.error e, f2) => (.error (DetectiveError.fromIo e), f2)
  | (.ok buf, f2) => (MimeDetective.detect_buffer env menv self buf, f2)

/-! Concrete environments and inputs used by the witnesses. -/

/-- A concrete engine session handle for witnesses. -/
def testCookie : Cookie := ⟨0⟩

/-- An engine in which every call succeeds and both queries answer "text/plain". -/
def okEnv : MagicEnv :=
  { openCookie := fun _ => .ok testCookie
    load := fun _ _ => .ok ()
    fileQuery := fun _ _ => .ok "text/plain"
    bufferQuery := fun _ _ => .ok "text/plain" }

/-- The structured MIME value text/plain. -/
def textPlain : Mime := ⟨"text", "plain", []⟩

/-- A parser accepting exactly the string "text/plain". -/
def okMimeEnv : MimeEnv :=
  ⟨fun s => if s = "text/plain" then .ok textPlain else .error ⟨s⟩⟩

/-- An engine whose queries answer a string that is not well-formed MIME. -/
def badOutputEnv : MagicEnv :=
  { okEnv with
    fileQuery := fun _ _ => .ok "not a mime"
    bufferQuery := fun _ _ => .ok "not a mime" }

/-- An engine whose database load fails (for instance on a nonexistent path). -/
def failLoadEnv : MagicEnv :=
  { okEnv with load := fun _ _ => .error ⟨"could not load"⟩ }

/-- An engine whose queries fail to classify their input. -/
def failQueryEnv : MagicEnv :=
  { okEnv with
    fileQuery := fun _ _ => .error ⟨"cannot classify"⟩
    bufferQuery := fun _ _ => .error ⟨"cannot classify"⟩ }

/-- A concrete detector for witnesses. -/
def testDetective : MimeDetective := ⟨testCookie⟩

/-- A fresh handle on a three-byte file ("hi" and a newline). -/
def twoByteFile : File := ⟨[104, 105, 10], 0, none⟩

/-- A fresh handle on a one-byte file: fewer than 2 bytes are available. -/
def shortFile : File := ⟨[104], 0, none⟩

/-! Claim theorems. -/

/-- Claim C1: for every open readable file handle with at least 2 bytes past
its position, detect_file reads exactly those 2 bytes, leaves the handle
advanced by exactly 2 bytes, and its result is exactly the detect_buffer
query applied to those 2 bytes — for every engine and parser behaviour. -/
theorem detect_file_reads_two_bytes_then_buffer_query
    (env : MagicEnv) (menv : MimeEnv) (d : MimeDetective) (f : File)
    (hre : f.readError = none) (hlen : f.pos + 2 ≤ f.contents.length) :
    MimeDetective.detect_file env menv d f =
      (MimeDetective.detect_buffer env menv d ((f.contents.drop f.pos).take 2),
       { f with pos := f.pos + 2 }) := by
  have h2 : 2 ≤ f.contents.length - f.pos := by omega
  simp [MimeDetective.detect_file, File.read_exact, hre, h2]

/-- Witness for C1: on a fresh 3-byte handle with an all-succeeding engine,
detect_file equals detect_buffer on the first 2 bytes, handle advanced by 2. -/
theorem detect_file_reads_two_bytes_then_buffer_query_witness :
    MimeDetective.detect_file okEnv okMimeEnv testDetective twoByteFile =
      (MimeDetective.detect_buffer okEnv okMimeEnv testDetective
        ((twoByteFile.contents.drop twoByteFile.pos).take 2),
       { twoByteFile with pos := twoByteFile.pos + 2 }) :=
  detect_file_reads_two_bytes_then_buffer_query okEnv okMimeEnv testDetective
    twoByteFile rfl (by decide)

/-- Claim C3: for every handle from which fewer than 2 bytes can be read
(position within 2 bytes of the end, or a pending read fault), detect_file
returns the Io cause, and the result — error and final handle state alike —
is the same for every engine and parser, so the engine's buffer query is
never consulted; the failing error is exactly the one read_exact produced. -/
theorem detect_file_short_read_io_error_before_query
    (f : File)
    (h : f.readError.isSome ∨ f.contents.length < f.pos + 2) :
    ∃ ie f2, f.read_exact 2 = (.error ie, f2) ∧
      ∀ env menv d, MimeDetective.detect_file env menv d f =
        (.error (DetectiveError.Io ie), f2) := by
  cases hre : f.readError with
  | some e =>
    refine ⟨e, f, ?_, ?_⟩
    · simp [File.read_exact, hre]
    · intro env menv d
      simp [MimeDetective.detect_file, File.read_exact, hre, DetectiveError.fromIo]
  | none =>
    have hlt : ¬ (2 ≤ f.contents.length - f.pos) := by
      rcases h with h | h
      · rw [hre] at h; simp at h
      · omega
    refine ⟨.unexpectedEof,
      { f with pos := f.pos + min 2 (f.contents.length - f.pos) }, ?_, ?_⟩
    · simp [File.read_exact, hre, hlt]
    · intro env menv d
      simp [MimeDetective.detect_file, File.read_exact, hre, hlt,
        DetectiveError.fromIo]

/-- Witness for C3: a fresh handle on a one-byte file satisfies the
hypothesis and detect_file fails with the Io cause under every engine. -/
theorem detect_file_short_read_io_error_before_query_witness :
    (shortFile.readError.isSome ∨ shortFile.contents.length < shortFile.pos + 2) ∧
    ∃ ie f2, shortFile.read_exact 2 = (.error ie, f2) ∧
      ∀ env menv d, MimeDetective.detect_file env menv d shortFile =
        (.error (DetectiveError.Io ie), f2) :=
  ⟨Or.inr (by decide),
   detect_file_short_read_io_error_before_query shortFile (Or.inr (by decide))⟩

/-- Claim C10: for every handle with no pending fault and at least 2 bytes
past its position, detect_file leaves the position advanced by exactly 2
bytes for every engine and parser behaviour — in particular also when the
engine or the parser then fails, so the side effect persists on every
non-I/O failure, not only on success. -/
theorem detect_file_advances_two_bytes_even_on_failure
    (f : File) (hre : f.readError = none)
    (hlen : f.pos + 2 ≤ f.contents.length)
    (env : MagicEnv) (menv : MimeEnv) (d : MimeDetective) :
    (MimeDetective.detect_file env menv d f).2 = { f with pos := f.pos + 2 } := by
  have h2 : 2 ≤ f.contents.length - f.pos := by omega
  simp [MimeDetective.detect_file, File.read_exact, hre, h2]

/-- Witness for C10: on a fresh 3-byte handle and an engine whose buffer
query fails (a database-cause failure), the handle still ends at position 2. -/
theorem detect_file_advances_two_bytes_even_on_failure_witness :
    (MimeDetective.detect_file failQueryEnv okMimeEnv testDetective twoByteFile).2 =
      { twoByteFile with pos := twoByteFile.pos + 2 } :=
  detect_file_advances_two_bytes_even_on_failure twoByteFile rfl (by decide)
    failQueryEnv okMimeEnv testDetective

/-- Claim C2: every public operation returns an Except value — a success or a
DetectiveError — and every error it returns is one of exactly three causes,
wrapping the collaborator's originating error unmodified: constructors wrap
an engine error from session open or database load; detect_filepath and
detect_buffer wrap either the engine's query error or the parser's error on
the engine's output; detect_file wraps the read's I/O error or passes
detect_buffer's error through.  No operation yields a Mime on failure. -/
theorem every_operation_error_wraps_one_of_three_causes
    (env : MagicEnv) (menv : MimeEnv) (d : MimeDetective)
    (paths : List String) (p : String) (b : List Nat) (f : File) :
    (∀ e, MimeDetective.new env = .error e → ∃ me, e = .Magic me) ∧
    (∀ e, MimeDetective.load_databases env paths = .error e →
      ∃ me, e = .Magic me ∧
        (env.openCookie flags.MIME_TYPE = .error me ∨
         ∃ c, env.openCookie flags.MIME_TYPE = .ok c ∧
           env.load c paths = .error me)) ∧
    (∀ e, MimeDetective.detect_filepath env menv d p = .error e →
      (∃ me, env.fileQuery d.cookie p = .error me ∧ e = .Magic me) ∨
      (∃ s pe, env.fileQuery d.cookie p = .ok s ∧ menv.parse s = .error pe ∧
        e = .Parse pe)) ∧
    (∀ e, MimeDetective.detect_buffer env menv d b = .error e →
      (∃ me, env.bufferQuery d.cookie b = .error me ∧ e = .Magic me) ∨
      (∃ s pe, env.bufferQuery d.cookie b = .ok s ∧ menv.parse s = .error pe ∧
        e = .Parse pe)) ∧
    (∀ e f2, MimeDetective.detect_file env menv d f = (.error e, f2) →
      (∃ ie, (f.read_exact 2).1 = .error ie ∧ e = .Io ie) ∨
      (∃ bts, (f.read_exact 2).1 = .ok bts ∧
        MimeDetective.detect_buffer env menv d bts = .error e)) := by
  have hload : ∀ q e, MimeDetective.load_databases env q = .error e →
      ∃ me, e = .Magic me ∧
        (env.openCookie flags.MIME_TYPE = .error me ∨
         ∃ c, env.openCookie flags.MIME_TYPE = .ok c ∧
           env.load c q = .error me) := by
    intro q e he
    unfold MimeDetective.load_databases at he
    cases hoc : env.openCookie flags.MIME_TYPE with
    | error me =>
      simp [hoc, DetectiveError.fromMagic] at he
      exact ⟨me, he.symm, Or.inl rfl⟩
    | ok c =>
      cases hl : env.load c q with
      | error me =>
        simp [hoc, hl, DetectiveError.fromMagic] at he
        exact ⟨me, he.symm, Or.inr ⟨c, rfl, hl⟩⟩
      | ok u =>
        simp [hoc, hl] at he
  have hbuf : ∀ e, MimeDetective.detect_buffer env menv d b = .error e →
      (∃ me, env.bufferQuery d.cookie b = .error me ∧ e = .Magic me) ∨
      (∃ s pe, env.bufferQuery d.cookie b = .ok s ∧ menv.parse s = .error pe ∧
        e = .Parse pe) := by
    intro e he
    unfold MimeDetective.detect_buffer at he
    cases hq : env.bufferQuery d.cookie b with
    | error me =>
      simp [hq, DetectiveError.fromMagic] at he
      exact Or.inl ⟨me, rfl, he.symm⟩
    | ok s =>
      cases hp : menv.parse s with
      | error pe =>
        simp [hq, hp, DetectiveError.fromParse] at he
        exact Or.inr ⟨s, pe, rfl, hp, he.symm⟩
      | ok m =>
        simp [hq, hp] at he
  refine ⟨?_, hload paths, ?_, hbuf, ?_⟩
  · intro e he
    obtain ⟨me, hme, _⟩ := hload ["/usr/share/misc/magic.mgc"] e he
    exact ⟨me, hme⟩
  · intro e he
    unfold MimeDetective.detect_filepath at he
    cases hq : env.fileQuery d.cookie p with
    | error me =>
      simp [hq, DetectiveError.fromMagic] at he
      exact Or.inl ⟨me, rfl, he.symm⟩
    | ok s =>
      cases hp : menv.parse s with
      | error pe =>
        simp [hq, hp, DetectiveError.fromParse] at he
        exact Or.inr ⟨s, pe, rfl, hp, he.symm⟩
      | ok m =>
        simp [hq, hp] at he
  · intro e f2 he
    unfold MimeDetective.detect_file at he
    cases hr : f.read_exact 2 with
    | mk r fr =>
      rw [hr] at he
      cases r with
      | error ie =>
        simp [DetectiveError.fromIo] at he
        exact Or.inl ⟨ie, rfl, he.1.symm⟩
      | ok bts =>
        simp at he
        exact Or.inr ⟨bts, rfl, he.1⟩

/-- Witness for C2: a construction whose database load fails yields exactly
the Magic cause wrapping the engine's own load error. -/
theorem every_operation_error_wraps_one_of_three_causes_witness :
    ∃ me, (DetectiveError.Magic ⟨"could not load"⟩ : DetectiveError) = .Magic me ∧
      (failLoadEnv.openCookie flags.MIME_TYPE = .error me ∨
       ∃ c, failLoadEnv.openCookie flags.MIME_TYPE = .ok c ∧
         failLoadEnv.load c ["/nonexistent"] = .error me) :=
  (every_operation_error_wraps_one_of_three_causes failLoadEnv okMimeEnv
    testDetective ["/nonexistent"] "p" [] twoByteFile).2.1
    (DetectiveError.Magic ⟨"could not load"⟩) rfl

/-- Claim C4: every Mime any detect operation returns has passed the grammar
machinery — it is exactly a successful parse of a string the engine produced —
and whenever the engine's output string fails to parse, the operation
returns the Parse cause wrapping the parser's error instead of a Mime. -/
theorem returned_mime_always_passed_grammar_validation
    (env : MagicEnv) (menv : MimeEnv) (d : MimeDetective)
    (p : String) (b : List Nat) (f : File) :
    (∀ m, MimeDetective.detect_filepath env menv d p = .ok m →
      ∃ s, env.fileQuery d.cookie p = .ok s ∧ menv.parse s = .ok m) ∧
    (∀ m, MimeDetective.detect_buffer env menv d b = .ok m →
      ∃ s, env.bufferQuery d.cookie b = .ok s ∧ menv.parse s = .ok m) ∧
    (∀ m f2, MimeDetective.detect_file env menv d f = (.ok m, f2) →
      ∃ bts s, (f.read_exact 2).1 = .ok bts ∧
        env.bufferQuery d.cookie bts = .ok s ∧ menv.parse s = .ok m) ∧
    (∀ s pe, env.fileQuery d.cookie p = .ok s → menv.parse s = .error pe →
      MimeDetective.detect_filepath env menv d p = .error (.Parse pe)) ∧
    (∀ s pe, env.bufferQuery d.cookie b = .ok s → menv.parse s = .error pe →
      MimeDetective.detect_buffer env menv d b = .error (.Parse pe)) := by
  have hbuf : ∀ c m, MimeDetective.detect_buffer env menv d c = .ok m →
      ∃ s, env.bufferQuery d.cookie c = .ok s ∧ menv.parse s = .ok m := by
    intro c m hm
    unfold MimeDetective.detect_buffer at hm
    cases hq : env.bufferQuery d.cookie c with
    | error me => simp [hq] at hm
    | ok s =>
      cases hp : menv.parse s with
      | error pe => simp [hq, hp] at hm
      | ok m2 =>
        simp [hq, hp] at hm
        exact ⟨s, rfl, by rw [hp, hm]⟩
  refine ⟨?_, hbuf b, ?_, ?_, ?_⟩
  · intro m hm
    unfold MimeDetective.detect_filepath at hm
    cases hq : env.fileQuery d.cookie p with
    | error me => simp [hq] at hm
    | ok s =>
      cases hp : menv.parse s with
      | error pe => simp [hq, hp] at hm
      | ok m2 =>
        simp [hq, hp] at hm
        exact ⟨s, rfl, by rw [hp, hm]⟩
  · intro m f2 hm
    unfold MimeDetective.detect_file at hm
    cases hr : f.read_exact 2 with
    | mk r fr =>
      rw [hr] at hm
      cases r with
      | error ie => simp [DetectiveError.fromIo] at hm
      | ok bts =>
        simp at hm
        obtain ⟨s, hs, hp⟩ := hbuf bts m hm.1
        exact ⟨bts, s, rfl, hs, hp⟩
  · intro s pe hs hp
    simp [MimeDetective.detect_filepath, hs, hp, DetectiveError.fromParse]
  · intro s pe hs hp
    simp [MimeDetective.detect_buffer, hs, hp, DetectiveError.fromParse]

/-- Witness for C4: an engine answering the malformed string "not a mime"
makes detect_buffer fail with the Parse cause wrapping the parser's error. -/
theorem returned_mime_always_passed_grammar_validation_witness :
    MimeDetective.detect_buffer badOutputEnv okMimeEnv testDetective [104, 105] =
      .error (.Parse ⟨"not a mime"⟩) :=
  (returned_mime_always_passed_grammar_validation badOutputEnv okMimeEnv
    testDetective "p" [104, 105] twoByteFile).2.2.2.2 "not a mime"
    ⟨"not a mime"⟩ rfl rfl

/-- Claim C5: if construction fails, the error is always the Magic
(database) cause — never Parse or Io — and no detector is returned; in
particular a session-open failure or a failure of the engine to load any of
the given paths (for instance a nonexistent database path) each make the
whole construction fail with precisely that engine error, with no partial
success. -/
theorem load_databases_failure_is_database_cause
    (env : MagicEnv) (paths : List String) :
    (∀ e, MimeDetective.load_databases env paths = .error e →
      ∃ me, e = .Magic me) ∧
    (∀ me, env.openCookie flags.MIME_TYPE = .error me →
      MimeDetective.load_databases env paths = .error (.Magic me)) ∧
    (∀ c me, env.openCookie flags.MIME_TYPE = .ok c →
      env.load c paths = .error me →
      MimeDetective.load_databases env paths = .error (.Magic me)) := by
  refine ⟨?_, ?_, ?_⟩
  · intro e he
    unfold MimeDetective.load_databases at he
    cases hoc : env.openCookie flags.MIME_TYPE with
    | error me =>
      simp [hoc, DetectiveError.fromMagic] at he
      exact ⟨me, he.symm⟩
    | ok c =>
      cases hl : env.load c paths with
      | error me =>
        simp [hoc, hl, DetectiveError.fromMagic] at he
        exact ⟨me, he.symm⟩
      | ok u =>
        simp [hoc, hl] at he
  · intro me hoc
    simp [MimeDetective.load_databases, hoc, DetectiveError.fromMagic]
  · intro c me hoc hl
    simp [MimeDetective.load_databases, hoc, hl, DetectiveError.fromMagic]

/-- Witness for C5: loading a nonexistent database path through an engine
that rejects it fails with exactly the Magic cause. -/
theorem load_databases_failure_is_database_cause_witness :
    MimeDetective.load_databases failLoadEnv ["/nonexistent/path.mgc"] =
      .error (.Magic ⟨"could not load"⟩) :=
  (load_databases_failure_is_database_cause failLoadEnv
    ["/nonexistent/path.mgc"]).2.2 testCookie ⟨"could not load"⟩ rfl rfl

/-- Claim C6: detect_filepath hands the path to the engine's path query and
never opens the file itself — its result is fully determined by that query
and the parser (last conjunct) — failing with the Magic cause exactly when
the engine's query fails (nonexistent or unreadable path, unclassifiable
content), with the Parse cause exactly when the returned identifier is not
well-formed MIME, and succeeding otherwise. -/
theorem detect_filepath_delegates_path_query_to_engine
    (env : MagicEnv) (menv : MimeEnv) (d : MimeDetective) (p : String) :
    (∀ me, env.fileQuery d.cookie p = .error me →
      MimeDetective.detect_filepath env menv d p = .error (.Magic me)) ∧
    (∀ s pe, env.fileQuery d.cookie p = .ok s → menv.parse s = .error pe →
      MimeDetective.detect_filepath env menv d p = .error (.Parse pe)) ∧
    (∀ s m, env.fileQuery d.cookie p = .ok s → menv.parse s = .ok m →
      MimeDetective.detect_filepath env menv d p = .ok m) ∧
    (∀ env2 menv2, env2.fileQuery = env.fileQuery → menv2.parse = menv.parse →
      MimeDetective.detect_filepath env2 menv2 d p =
        MimeDetective.detect_filepath env menv d p) := by
  refine ⟨?_, ?_, ?_, ?_⟩
  · intro me hq
    simp [MimeDetective.detect_filepath, hq, DetectiveError.fromMagic]
  · intro s pe hq hp
    simp [MimeDetective.detect_filepath, hq, hp, DetectiveError.fromParse]
  · intro s m hq hp
    simp [MimeDetective.detect_filepath, hq, hp]
  · intro env2 menv2 hq hp
    unfold MimeDetective.detect_filepath
    rw [hq, hp]

/-- Witness for C6: an engine whose path query cannot classify the path
makes detect_filepath fail with the Magic cause wrapping that error. -/
theorem detect_filepath_delegates_path_query_to_engine_witness :
    MimeDetective.detect_filepath failQueryEnv okMimeEnv testDetective
      "/no/such/file" = .error (.Magic ⟨"cannot classify"⟩) :=
  (detect_filepath_delegates_path_query_to_engine failQueryEnv okMimeEnv
    testDetective "/no/such/file").1 ⟨"cannot classify"⟩ rfl

/-- Claim C7: the default constructor equals load_databases on the single
platform-default path /usr/share/misc/magic.mgc, and construction consults
the engine's session opening only at the fixed MIME_TYPE mode flag — two
engines agreeing there (and on loading) construct identically, so the flag
is not caller-settable. -/
theorem new_is_load_databases_on_default_path_with_fixed_flag
    (env env2 : MagicEnv) (paths : List String)
    (hopen : env2.openCookie flags.MIME_TYPE = env.openCookie flags.MIME_TYPE)
    (hload : env2.load = env.load) :
    MimeDetective.new env =
      MimeDetective.load_databases env ["/usr/share/misc/magic.mgc"] ∧
    MimeDetective.load_databases env2 paths =
      MimeDetective.load_databases env paths := by
  refine ⟨rfl, ?_⟩
  unfold MimeDetective.load_databases
  rw [hopen, hload]

/-- Witness for C7: two engines differing only in their queries construct
identically, and new okEnv is load_databases okEnv on the default path. -/
theorem new_is_load_databases_on_default_path_with_fixed_flag_witness :
    MimeDetective.new okEnv =
      MimeDetective.load_databases okEnv ["/usr/share/misc/magic.mgc"] ∧
    MimeDetective.load_databases failQueryEnv ["/a.mgc"] =
      MimeDetective.load_databases okEnv ["/a.mgc"] :=
  new_is_load_databases_on_default_path_with_fixed_flag okEnv failQueryEnv
    ["/a.mgc"] rfl rfl

/-- Claim C8: the detect operations are deterministic functions of the
detector's session handle and the observable input: two calls against
detectors with the same handle, on the same path, the same buffer, or file
handles in the same state, return identical results — no hidden mutable
state influences them. -/
theorem detect_operations_deterministic_no_hidden_state
    (env : MagicEnv) (menv : MimeEnv) (d d2 : MimeDetective)
    (hc : d.cookie = d2.cookie) :
    (∀ p, MimeDetective.detect_filepath env menv d p =
      MimeDetective.detect_filepath env menv d2 p) ∧
    (∀ b, MimeDetective.detect_buffer env menv d b =
      MimeDetective.detect_buffer env menv d2 b) ∧
    (∀ f f2, f.contents = f2.contents → f.pos = f2.pos →
      f.readError = f2.readError →
      MimeDetective.detect_file env menv d f =
        MimeDetective.detect_file env menv d2 f2) := by
  have hd : d = d2 := by
    cases d
    cases d2
    simpa using hc
  subst hd
  refine ⟨fun p => rfl, fun b => rfl, ?_⟩
  intro f f2 h1 h2 h3
  have hf : f = f2 := by
    cases f
    cases f2
    simp_all
  subst hf
  rfl

/-- Witness for C8: a second detector built from the same handle and a
second handle in the same state as twoByteFile give the same detect_file
result. -/
theorem detect_operations_deterministic_no_hidden_state_witness :
    MimeDetective.detect_file okEnv okMimeEnv testDetective twoByteFile =
      MimeDetective.detect_file okEnv okMimeEnv ⟨⟨0⟩⟩ ⟨[104, 105, 10], 0, none⟩ :=
  (detect_operations_deterministic_no_hidden_state okEnv okMimeEnv
    testDetective ⟨⟨0⟩⟩ rfl).2.2 twoByteFile ⟨[104, 105, 10], 0, none⟩ rfl rfl rfl

/-- Claim C9: detect_filepath and detect_buffer never fail with the Io
cause — every error they return is Magic or Parse — and when detect_file
fails with the Io cause the wrapped error is exactly the one its 2-byte
read produced, so the Io variant arises only from that read. -/
theorem io_cause_only_from_detect_file_read
    (env : MagicEnv) (menv : MimeEnv) (d : MimeDetective)
    (p : String) (b : List Nat) (f : File) :
    (∀ e, MimeDetective.detect_filepath env menv d p = .error e →
      (∃ me, e = .Magic me) ∨ (∃ pe, e = .Parse pe)) ∧
    (∀ e, MimeDetective.detect_buffer env menv d b = .error e →
      (∃ me, e = .Magic me) ∨ (∃ pe, e = .Parse pe)) ∧
    (∀ ie, (MimeDetective.detect_file env menv d f).1 = .error (.Io ie) →
      (f.read_exact 2).1 = .error ie) := by
  have hbufNoIo : ∀ c e, MimeDetective.detect_buffer env menv d c = .error e →
      (∃ me, e = .Magic me) ∨ (∃ pe, e = .Parse pe) := by
    intro c e he
    unfold MimeDetective.detect_buffer at he
    cases hq : env.bufferQuery d.cookie c with
    | error me =>
      simp [hq, DetectiveError.fromMagic] at he
      exact Or.inl ⟨me, he.symm⟩
    | ok s =>
      cases hp : menv.parse s with
      | error pe =>
        simp [hq, hp, DetectiveError.fromParse] at he
        exact Or.inr ⟨pe, he.symm⟩
      | ok m =>
        simp [hq, hp] at he
  refine ⟨?_, hbufNoIo b, ?_⟩
  · intro e he
    unfold MimeDetective.detect_filepath at he
    cases hq : env.fileQuery d.cookie p with
    | error me =>
      simp [hq, DetectiveError.fromMagic] at he
      exact Or.inl ⟨me, he.symm⟩
    | ok s =>
      cases hp : menv.parse s with
      | error pe =>
        simp [hq, hp, DetectiveError.fromParse] at he
        exact Or.inr ⟨pe, he.symm⟩
      | ok m =>
        simp [hq, hp] at he
  · intro ie h
    unfold MimeDetective.detect_file at h
    cases hr : f.read_exact 2 with
    | mk r fr =>
      rw [hr] at h
      cases r with
      | error ie2 =>
        simp [DetectiveError.fromIo] at h
        simp [h]
      | ok bts =>
        simp at h
        rcases hbufNoIo bts (.Io ie) h with ⟨me, hme⟩ | ⟨pe, hpe⟩
        · exact absurd hme (by simp)
        · exact absurd hpe (by simp)

/-- Witness for C9: an engine whose buffer query cannot classify makes
detect_buffer fail, and that failure is of the Magic-or-Parse shape. -/
theorem io_cause_only_from_detect_file_read_witness :
    (∃ me, (DetectiveError.Magic ⟨"cannot classify"⟩ : DetectiveError) =
      .Magic me) ∨
    (∃ pe, (DetectiveError.Magic ⟨"cannot classify"⟩ : DetectiveError) =
      .Parse pe) :=
  (io_cause_only_from_detect_file_read failQueryEnv okMimeEnv testDetective
    "p" [104, 105] twoByteFile).2.1 (DetectiveError.Magic ⟨"cannot classify"⟩) rfl
